import Mathlib

/-!
Shallow embedding of the client-side conversation and cart logic of the
personal shopping assistant (React client: `ChatWidget.tsx`, `pages/chat.tsx`,
and the basket/chat components in `src/unnamed/part_003` / `part_004`).

Pure data (products, intents, context bundles, chat responses) is embedded as
Lean structures; the React state updates (mutation `onSuccess`, `handleSend`,
`resetConversation`, the basket reducers) are embedded as explicit state
transformers; JavaScript `Map`/`Set` are embedded as insertion-ordered
association lists / lists with the JS `set`/`delete`/`has` semantics.
-/

namespace Shop

/-- A catalog product as the client sees it (`Product` interface in the
basket component): `id`, `name`, optional `brand`, `price`, `image_url`. -/
structure Product where
  id : Nat
  name : String
  brand : Option String := none
  price : Option Int := none
  image_url : Option String := none
deriving Repr, DecidableEq

/-- A single weather reading (`temperature`, `description`) as rendered by the
Context Insights panel. -/
structure Weather where
  temperature : Int
  description : String
deriving Repr, DecidableEq

/-- One per-destination environmental entry of `environmental.segments`:
a destination plus an optional weather reading. -/
structure EnvSegment where
  destination : String
  weather : Option Weather := none
deriving Repr, DecidableEq

/-- The `environmental` part of a context bundle: an optional per-segment
sequence, an optional single weather reading, optional trends. -/
structure Environmental where
  segments : Option (List EnvSegment) := none
  weather : Option Weather := none
  trends : Option (List String) := none
deriving Repr, DecidableEq

/-- A trip segment of the accumulated intent: destination plus date range. -/
structure TripSegment where
  destination : String
  start_date : String
  end_date : String
deriving Repr, DecidableEq

/-- The structured intent as the client holds it: optional scalar fields and
an optional `trip_segments` sequence. -/
structure Intent where
  category : Option String := none
  occasion : Option String := none
  style : Option String := none
  location : Option String := none
  budget_max : Option Int := none
  trip_segments : Option (List TripSegment) := none
deriving Repr, DecidableEq

/-- The intent with every field absent (the client initializes
`currentIntent` to `{}` and resets it to `{}`). -/
def emptyIntent : Intent := {}

/-- A context bundle as held by the client (`ContextInfo`): optional intent
echo and optional environmental data. -/
structure ContextInfo where
  intent : Option Intent := none
  environmental : Option Environmental := none
deriving Repr, DecidableEq

/- ------------------------------------------------------------------
C1: product grids.
`ChatWidget.tsx` renders `message.products && message.products.length > 0 &&
... message.products.slice(0, 6).map(...)`;
`pages/chat.tsx` renders the same guard with `slice(0, 4)`.
------------------------------------------------------------------ -/

/-- The products the `ChatWidget` grid renders for a message: nothing when
`products` is absent or empty, otherwise `products.slice(0, 6)`. -/
def widgetGridProducts : Option (List Product) → List Product
  | none => []
  | some ps => if ps.length > 0 then ps.take 6 else []

/-- The products the `ChatPage` (`pages/chat.tsx`) grid renders for a
message: nothing when `products` is absent or empty, otherwise
`products.slice(0, 4)`. -/
def pageGridProducts : Option (List Product) → List Product
  | none => []
  | some ps => if ps.length > 0 then ps.take 4 else []

/-- Concrete sample product used in counterexamples/witnesses. -/
def sampleProduct (n : Nat) : Product :=
  { id := n, name := "Item" }

/-- Six distinct concrete products. -/
def sixProducts : List Product :=
  [sampleProduct 1, sampleProduct 2, sampleProduct 3,
   sampleProduct 4, sampleProduct 5, sampleProduct 6]

/- ------------------------------------------------------------------
C2: Context Insights weather rendering.
`ChatWidget.tsx` lines 1070-1102:
`currentContext.environmental?.segments && ...segments.length > 0 ?
   <per-segment block> : (currentContext.environmental?.weather && <single>)`.
------------------------------------------------------------------ -/

/-- One rendered per-destination entry: the destination name and, when the
segment carries one, its weather line. -/
structure SegView where
  destination : String
  weatherLine : Option Weather
deriving Repr, DecidableEq

/-- The weather area of the Context Insights panel: at most one of the two
blocks is rendered. -/
structure WeatherRender where
  perSegment : Option (List SegView)
  single : Option Weather
deriving Repr, DecidableEq

/-- The `environmental?.segments` chain: absent environmental or absent
segments behaves as the empty sequence. -/
def envSegments (c : ContextInfo) : List EnvSegment :=
  match c.environmental with
  | none => []
  | some e => e.segments.getD []

/-- The `environmental?.weather` chain. -/
def envWeather (c : ContextInfo) : Option Weather :=
  match c.environmental with
  | none => none
  | some e => e.weather

/-- The weather area rendered by the ChatWidget Context Insights panel,
embedding the ternary at `ChatWidget.tsx:1070`: if the per-segment sequence
is non-empty, render one entry per segment (in order) and no single reading;
otherwise render the single reading when present. -/
def weatherRender (c : ContextInfo) : WeatherRender :=
  if (envSegments c).length > 0 then
    { perSegment := some ((envSegments c).map fun s => ⟨s.destination, s.weather⟩),
      single := none }
  else
    { perSegment := none, single := envWeather c }

/-- Concrete context with two environmental segments, for witnesses. -/
def twoSegContext : ContextInfo :=
  { environmental := some
      { segments := some
          [ { destination := "Paris", weather := some ⟨18, "rain"⟩ },
            { destination := "Tokyo" } ],
        weather := some ⟨25, "sunny"⟩ } }

/-- Concrete context with a single weather reading and no segments. -/
def singleWeatherContext : ContextInfo :=
  { environmental := some { weather := some ⟨25, "sunny"⟩ } }

/- ------------------------------------------------------------------
C3 / C4 / C5: the ChatWidget conversation state and its updates
(`chatMutation.onSuccess`, `resetConversation` in `ChatWidget.tsx`, with the
same `onSuccess` step logic in `src/unnamed/part_004`).
------------------------------------------------------------------ -/

/-- One agent-thinking audit record (only the fields the client stores). -/
structure AgentStep where
  agent : String
  action : String
deriving Repr, DecidableEq

/-- Chat message roles. -/
inductive Role
  | user
  | assistant
deriving Repr, DecidableEq

/-- The JSON body of a turn response as consumed by `onSuccess`:
`{ response, products?, context?, updated_intent?, clarification_needed,
suggestions?, agent_thinking? }`. -/
structure ChatResponse where
  response : String
  products : Option (List Product) := none
  context : Option ContextInfo := none
  updated_intent : Option Intent := none
  clarification_needed : Bool := false
  suggestions : Option (List String) := none
  agent_thinking : Option (List AgentStep) := none
deriving Repr, DecidableEq

/-- A message in the widget's `messages` list. -/
structure Message where
  role : Role
  content : String
  products : Option (List Product) := none
  context : Option ContextInfo := none
  suggestions : Option (List String) := none
deriving Repr, DecidableEq

/-- The ChatWidget React state relevant to the claims: conversation state
(`messages`, `currentContext`, `currentIntent`, `currentStep`,
`agentThinkingLogs`, `input`) plus session identity (`customerId`,
`customerName` state and the localStorage-backed stored credentials). -/
structure WidgetState where
  messages : List Message := []
  input : String := ""
  currentContext : Option ContextInfo := none
  currentIntent : Intent := {}
  currentStep : Nat := 1
  agentThinkingLogs : List AgentStep := []
  customerId : Option String := none
  customerName : Option String := none
  storedCustomerId : Option String := none
  storedCustomerName : Option String := none
deriving Repr, DecidableEq

/-- The `data.products && data.products.length > 0` chain: absent products
behave as the empty list. -/
def respProducts (d : ChatResponse) : List Product := d.products.getD []

/-- The step update of `onSuccess`: non-empty products set the step to 10;
otherwise a clarification turn sets it to `min (prev + 1) 9`; otherwise the
step is unchanged. -/
def stepAfter (d : ChatResponse) (s : Nat) : Nat :=
  if (respProducts d).length > 0 then 10
  else if d.clarification_needed then min (s + 1) 9
  else s

/-- The step after a sequence of delivered responses, starting from the
initial `useState(1)`. -/
def stepRun (ds : List ChatResponse) : Nat :=
  ds.foldl (fun s d => stepAfter d s) 1

/-- The assistant message `onSuccess` builds from a response. -/
def assistantMessageOf (d : ChatResponse) : Message :=
  { role := .assistant, content := d.response, products := d.products,
    context := d.context, suggestions := d.suggestions }

/-- `chatMutation.onSuccess` as a state transformer: appends the assistant
message, replaces the thinking log when the response carries a non-empty one,
updates context/intent when present, and applies the step update. -/
def onSuccess (d : ChatResponse) (s : WidgetState) : WidgetState :=
  { s with
    messages := s.messages ++ [assistantMessageOf d],
    agentThinkingLogs :=
      if (d.agent_thinking.getD []).length > 0 then d.agent_thinking.getD []
      else s.agentThinkingLogs,
    currentContext :=
      match d.context with
      | some c => some c
      | none => s.currentContext,
    currentIntent :=
      match d.updated_intent with
      | some i => i
      | none => s.currentIntent,
    currentStep := stepAfter d s.currentStep }

/-- Outcome of one turn request: either the parsed response is delivered
(`onSuccess` runs) or the request failed (the widget installs no error
handler, so the state is untouched). -/
inductive TurnResult
  | ok (d : ChatResponse)
  | err (msg : String)

/-- Effect of a turn's outcome on the widget state. -/
def applyTurnResult : TurnResult → WidgetState → WidgetState
  | .ok d, s => onSuccess d s
  | .err _, s => s

/-- The message list `resetConversation` installs from the greeting fetch:
`data.greeting ? [assistant message] : []` (an absent or empty greeting is
falsy). -/
def greetingMessages : Option String → List Message
  | some g => if g = "" then [] else [{ role := .assistant, content := g }]
  | none => []

/-- `resetConversation` as a state transformer (the external `/api/reset`
POST and `/api/greeting` fetch are environment inputs; `greeting` is the
fetched greeting when a stored customer id exists): clears context, intent,
step, thinking logs, and replaces the messages with the fresh greeting (or
nothing for a guest). -/
def resetConversation (greeting : Option String) (s : WidgetState) : WidgetState :=
  match s.storedCustomerId with
  | some _ =>
    { s with currentContext := none, currentIntent := emptyIntent,
             currentStep := 1, agentThinkingLogs := [],
             messages := greetingMessages greeting }
  | none =>
    { s with currentContext := none, currentIntent := emptyIntent,
             currentStep := 1, agentThinkingLogs := [],
             messages := [] }

/- ------------------------------------------------------------------
C6: the request body built by `chatMutation.mutationFn`:
`user_id = storedId ? parseInt(storedId.replace("CUST-", "")) : 1`,
sent as `{ message, user_id }`.
------------------------------------------------------------------ -/

/-- The JSON body POSTed to `/api/chat`: the user message and a numeric
`user_id` (`none` models JavaScript `NaN` from a failed `parseInt`). -/
structure ChatRequest where
  message : String
  user_id : Option Nat
deriving Repr, DecidableEq

/-- JavaScript `String.prototype.trim`: strip leading and trailing
whitespace. -/
def jsTrim (s : String) : String :=
  ⟨((s.data.dropWhile Char.isWhitespace).reverse.dropWhile Char.isWhitespace).reverse⟩

/-- Replace the first occurrence of `pat` in the character list (JavaScript
`String.prototype.replace` with a string pattern replaces only the first
occurrence). -/
def goReplace (pat rep : List Char) : List Char → List Char
  | [] => if pat.isEmpty then rep else []
  | c :: rest =>
    if pat.isPrefixOf (c :: rest) then rep ++ (c :: rest).drop pat.length
    else c :: goReplace pat rep rest

/-- JavaScript `s.replace(pat, rep)` for plain string patterns: first
occurrence only. -/
def jsReplaceFirst (s pat rep : String) : String :=
  ⟨goReplace pat.data rep.data s.data⟩

/-- JavaScript `parseInt` restricted to the base-10 digit case: parses the
leading digit run, `NaN` (`none`) when there is none. -/
def jsParseInt (s : String) : Option Nat :=
  let ds := s.data.takeWhile Char.isDigit
  if ds.isEmpty then none
  else some (ds.foldl (fun n c => 10 * n + (c.toNat - 48)) 0)

/-- The request body of `chatMutation.mutationFn` (same in `ChatWidget.tsx`,
`pages/chat.tsx` and `src/unnamed/part_004`): with a stored customer id the
numeric part after removing `CUST-` is parsed, otherwise the default id 1. -/
def chatRequestBody (storedId : Option String) (message : String) : ChatRequest :=
  { message := message,
    user_id :=
      match storedId with
      | some sid => jsParseInt (jsReplaceFirst sid "CUST-" "")
      | none => some 1 }

/- ------------------------------------------------------------------
C7 / C8: the send-path guards.
`handleSend`: `if (!input.trim() || chatMutation.isPending) return;`
`handleSuggestionClick`: `if (chatMutation.isPending) return;`
------------------------------------------------------------------ -/

/-- `handleSend` as a state transformer returning the request it issues (if
any): refuses when the trimmed input is empty or a mutation is pending;
otherwise appends the user message, issues the request, and clears the
input. -/
def handleSend (pending : Bool) (s : WidgetState) : WidgetState × Option ChatRequest :=
  if jsTrim s.input = "" ∨ pending = true then (s, none)
  else
    ({ s with messages := s.messages ++ [{ role := .user, content := s.input }],
              input := "" },
     some (chatRequestBody s.storedCustomerId s.input))

/-- Events of the request-in-flight machine: a typed send, a quick-reply
suggestion click, or completion of the in-flight request. -/
inductive ClientEvent
  | send (input : String)
  | suggest (text : String)
  | complete

/-- `chatMutation.isPending`: a request is in flight. -/
def pendingOf (inFlight : Nat) : Bool := inFlight != 0

/-- One client event's effect on the number of in-flight turn requests:
`handleSend` and `handleSuggestionClick` issue a request only when none is
pending; a completion retires the in-flight request. -/
def clientStep (inFlight : Nat) : ClientEvent → Nat
  | .send i => if jsTrim i = "" ∨ pendingOf inFlight = true then inFlight else inFlight + 1
  | .suggest _ => if pendingOf inFlight = true then inFlight else inFlight + 1
  | .complete => inFlight - 1

/-- In-flight request count after a sequence of client events, from the idle
initial state. -/
def clientRun (evs : List ClientEvent) : Nat := evs.foldl clientStep 0

/-- Concrete response carrying one product, for witnesses. -/
def productResponse : ChatResponse :=
  { response := "Here are my picks", products := some [sampleProduct 1] }

/-- Concrete clarification response without products, for witnesses. -/
def clarifyResponse : ChatResponse :=
  { response := "What is the occasion?", clarification_needed := true,
    suggestions := some ["Wedding", "Office"] }

/-- Concrete response with an empty products list, for witnesses. -/
def apologyResponse : ChatResponse :=
  { response := "Sorry, nothing matched - could you rephrase?",
    products := some [] }

/-- Concrete widget state mid-conversation, for witnesses. -/
def busyState : WidgetState :=
  { messages := [{ role := .user, content := "I need shoes" }],
    input := "  for a wedding  ",
    currentContext := some singleWeatherContext,
    currentIntent := { category := some "shoes" },
    currentStep := 4,
    agentThinkingLogs := [{ agent := "Clarifier", action := "asked occasion" }],
    customerId := some "CUST-42",
    customerName := some "Dana",
    storedCustomerId := some "CUST-42",
    storedCustomerName := some "Dana" }

/- ------------------------------------------------------------------
C9 / C10: the cart reducers of the basket provider
(`src/unnamed/part_003`, `BasketProvider`; `ChatWidget.tsx` has the same
`Map` logic without the selection set).
JavaScript `Map` is embedded as an insertion-ordered association list with
`has` / `set` (replace in place or append) / `delete`; `Set` as an
insertion-ordered duplicate-free list.
------------------------------------------------------------------ -/

/-- A cart entry: the product and its quantity. -/
structure CartItem where
  product : Product
  quantity : Int
deriving Repr, DecidableEq

/-- The `Map<number, CartItem>` backing the cart, in insertion order. -/
abbrev Cart := List (Nat × CartItem)

/-- `Map.has`. -/
def cartHas (c : Cart) (k : Nat) : Bool := c.any (fun e => e.1 == k)

/-- `Map.get`. -/
def cartGet (c : Cart) (k : Nat) : Option CartItem :=
  (c.find? (fun e => e.1 == k)).map (fun e => e.2)

/-- `Map.set`: replace the value in place when the key exists, else append. -/
def cartSet (c : Cart) (k : Nat) (v : CartItem) : Cart :=
  if cartHas c k then c.map (fun e => if e.1 == k then (k, v) else e)
  else c ++ [(k, v)]

/-- `Map.delete`. -/
def cartDelete (c : Cart) (k : Nat) : Cart := c.filter (fun e => e.1 != k)

/-- `Set.add`. -/
def selAdd (s : List Nat) (k : Nat) : List Nat :=
  if s.contains k then s else s ++ [k]

/-- `Set.delete`. -/
def selDelete (s : List Nat) (k : Nat) : List Nat := s.filter (fun x => x != k)

/-- The `BasketProvider` state the cart reducers touch: the cart map and the
selected-item id set. -/
structure BasketState where
  cartItems : Cart := []
  selected : List Nat := []
deriving Repr, DecidableEq

/-- `addToCart` of `BasketProvider`: toggles membership - an already-present
product is deleted (and deselected), an absent one is inserted with
quantity 1 (and selected). -/
def addToCart (p : Product) (b : BasketState) : BasketState :=
  if cartHas b.cartItems p.id then
    { cartItems := cartDelete b.cartItems p.id,
      selected := selDelete b.selected p.id }
  else
    { cartItems := cartSet b.cartItems p.id { product := p, quantity := 1 },
      selected := selAdd b.selected p.id }

/-- `removeFromCart`: deletes the entry (and its selection). -/
def removeFromCart (k : Nat) (b : BasketState) : BasketState :=
  { cartItems := cartDelete b.cartItems k,
    selected := selDelete b.selected k }

/-- `updateQuantity`: no-op when the product is absent or the new quantity
would fall below 1; otherwise replaces the entry with the updated
quantity. -/
def updateQuantity (k : Nat) (delta : Int) (b : BasketState) : BasketState :=
  match cartGet b.cartItems k with
  | none => b
  | some item =>
    if item.quantity + delta < 1 then b
    else
      { b with
        cartItems := cartSet b.cartItems k ({ item with quantity := item.quantity + delta }) }

/-- The three cart operations reachable states are built from. -/
inductive CartOp
  | add (p : Product)
  | remove (k : Nat)
  | update (k : Nat) (delta : Int)

/-- Apply one cart operation. -/
def applyCartOp (b : BasketState) : CartOp → BasketState
  | .add p => addToCart p b
  | .remove k => removeFromCart k b
  | .update k d => updateQuantity k d b

/-- The basket state after a sequence of operations from the empty cart. -/
def runCartOps (ops : List CartOp) : BasketState :=
  ops.foldl applyCartOp {}

/-- Every quantity in the cart is at least 1. -/
def CartQuantInv (c : Cart) : Prop := ∀ e ∈ c, 1 ≤ e.2.quantity

end Shop

namespace Shop

/-- C1 (counterexample): the claim says the product grid renders exactly the
first 6 elements of the response's products; the `ChatPage` grid in
`pages/chat.tsx` renders only the first 4, so on a 6-product response the
page grid differs from the first-6 prefix. -/
theorem pageGrid_not_first_six :
    pageGridProducts (some sixProducts) ≠ sixProducts.take 6 := by
  decide

/-- C1 (amended): every grid presents at most 6 products; the `ChatWidget`
grid renders exactly the first 6 elements of the products sequence in order,
while the `ChatPage` grid renders exactly the first 4; with products absent,
neither grid renders anything. -/
theorem grid_caps :
    ∀ ps : List Product,
      widgetGridProducts (some ps) = ps.take 6 ∧
      pageGridProducts (some ps) = ps.take 4 ∧
      (widgetGridProducts (some ps)).length ≤ 6 ∧
      (pageGridProducts (some ps)).length ≤ 6 ∧
      widgetGridProducts none = [] ∧
      pageGridProducts none = [] := by
  intro ps
  refine ⟨?_, ?_, ?_, ?_, rfl, rfl⟩
  · by_cases h : ps.length > 0
    · simp [widgetGridProducts, h]
    · simp only [Nat.not_lt, Nat.le_zero, List.length_eq_zero] at h
      simp [widgetGridProducts, h]
  · by_cases h : ps.length > 0
    · simp [pageGridProducts, h]
    · simp only [Nat.not_lt, Nat.le_zero, List.length_eq_zero] at h
      simp [pageGridProducts, h]
  · by_cases h : ps.length > 0
    · simp only [widgetGridProducts, if_pos h, List.length_take]
      omega
    · simp [widgetGridProducts, h]
  · by_cases h : ps.length > 0
    · simp only [pageGridProducts, if_pos h, List.length_take]
      omega
    · simp [pageGridProducts, h]

/-- C2: the weather area has exactly one of two shapes, decided solely by
whether `environmental.segments` is non-empty: with non-empty segments a
per-destination entry is rendered for each segment in order and the single
reading is not rendered; otherwise no per-segment block is rendered and the
single reading is rendered exactly when present. The two blocks are never
both rendered. -/
theorem weatherRender_exclusive :
    ∀ c : ContextInfo,
      ¬((weatherRender c).perSegment.isSome ∧ (weatherRender c).single.isSome) ∧
      (envSegments c ≠ [] →
        weatherRender c =
          { perSegment := some ((envSegments c).map fun s => ⟨s.destination, s.weather⟩),
            single := none }) ∧
      (envSegments c = [] →
        (weatherRender c).perSegment = none ∧
        (weatherRender c).single = envWeather c) := by
  intro c
  by_cases h : (envSegments c).length > 0
  · refine ⟨?_, ?_, ?_⟩
    · simp [weatherRender, h]
    · intro _; simp [weatherRender, h]
    · intro hnil; rw [hnil] at h; simp at h
  · have hnil : envSegments c = [] := by
      simpa [List.length_eq_zero] using Nat.le_zero.mp (Nat.not_lt.mp h)
    refine ⟨?_, ?_, ?_⟩
    · simp [weatherRender, h]
    · intro hne; exact absurd hnil hne
    · intro _; simp [weatherRender, h]

/-- C2 witness: on a concrete two-segment context the per-segment block with
both destinations is rendered and no single reading; on a concrete
segment-free context only the single reading is rendered. -/
theorem weatherRender_exclusive_witness :
    (weatherRender twoSegContext).perSegment =
        some [⟨"Paris", some ⟨18, "rain"⟩⟩, ⟨"Tokyo", none⟩] ∧
    (weatherRender twoSegContext).single = none ∧
    (weatherRender singleWeatherContext).perSegment = none ∧
    (weatherRender singleWeatherContext).single = some ⟨25, "sunny"⟩ := by
  have h1 := weatherRender_exclusive twoSegContext
  have h2 := weatherRender_exclusive singleWeatherContext
  have e1 := h1.2.1 (by decide)
  have e2 := h2.2.2 (by decide)
  refine ⟨?_, ?_, e2.1, ?_⟩
  · rw [e1]; decide
  · rw [e1]
  · rw [e2.2]; decide

/-- Helper: one `onSuccess` step keeps the progress step within 1..10. -/
theorem stepAfter_bounds (d : ChatResponse) (s : Nat)
    (h1 : 1 ≤ s) (h2 : s ≤ 10) : 1 ≤ stepAfter d s ∧ stepAfter d s ≤ 10 := by
  unfold stepAfter
  by_cases hp : (respProducts d).length > 0
  · simp [hp]
  · by_cases hc : d.clarification_needed
    · simp only [if_neg hp, if_pos hc]
      omega
    · simp only [if_neg hp, if_neg hc]
      exact ⟨h1, h2⟩

/-- Helper: folding step updates from any in-range start stays in 1..10. -/
theorem stepRun_from_bounds (ds : List ChatResponse) :
    ∀ s : Nat, 1 ≤ s → s ≤ 10 →
      1 ≤ ds.foldl (fun s d => stepAfter d s) s ∧
      ds.foldl (fun s d => stepAfter d s) s ≤ 10 := by
  induction ds with
  | nil => intro s h1 h2; exact ⟨h1, h2⟩
  | cons d ds ih =>
    intro s h1 h2
    have hb := stepAfter_bounds d s h1 h2
    simpa using ih (stepAfter d s) hb.1 hb.2

/-- C3: non-empty products set the step to exactly 10; a product-free
clarification turn sets it to `min (prev + 1) 9` (never reaching 10);
otherwise the step is unchanged; and from the initial step 1 every sequence
of delivered responses leaves the step within 1..10. -/
theorem step_progression :
    ∀ (d : ChatResponse) (s : Nat) (ds : List ChatResponse),
      (respProducts d ≠ [] → stepAfter d s = 10) ∧
      (respProducts d = [] → d.clarification_needed = true →
        stepAfter d s = min (s + 1) 9 ∧ stepAfter d s ≠ 10) ∧
      (respProducts d = [] → d.clarification_needed = false →
        stepAfter d s = s) ∧
      (1 ≤ stepRun ds ∧ stepRun ds ≤ 10) := by
  intro d s ds
  refine ⟨?_, ?_, ?_, stepRun_from_bounds ds 1 (by omega) (by omega)⟩
  · intro h
    have hl : (respProducts d).length > 0 := by
      cases hk : respProducts d with
      | nil => exact absurd hk h
      | cons a t => simp [hk]
    simp [stepAfter, hl]
  · intro h hc
    have hl : ¬(respProducts d).length > 0 := by simp [h]
    constructor
    · simp [stepAfter, hl, hc]
    · simp only [stepAfter, if_neg hl, hc, if_pos]
      omega
  · intro h hc
    have hl : ¬(respProducts d).length > 0 := by simp [h]
    simp [stepAfter, hl, hc]

/-- C3 witness: a product-carrying response jumps the step from 4 to 10, a
clarification response moves it from 4 to 5 and from 9 stays at 9, a plain
response leaves it at 4, and a concrete run stays within 1..10. -/
theorem step_progression_witness :
    stepAfter productResponse 4 = 10 ∧
    stepAfter clarifyResponse 4 = min 5 9 ∧
    stepAfter clarifyResponse 9 ≠ 10 ∧
    stepAfter apologyResponse 4 = 4 ∧
    1 ≤ stepRun [clarifyResponse, productResponse] ∧
    stepRun [clarifyResponse, productResponse] ≤ 10 := by
  have h4 := step_progression productResponse 4 [clarifyResponse, productResponse]
  have h5 := step_progression clarifyResponse 4 []
  have h9 := step_progression clarifyResponse 9 []
  have ha := step_progression apologyResponse 4 []
  refine ⟨h4.1 (by decide), ?_, (h9.2.1 (by decide) (by decide)).2, ?_, h4.2.2.2⟩
  · have := h5.2.1 (by decide) (by decide)
    simpa using this.1
  · exact ha.2.2.1 (by decide) (by decide)

/-- C4: reset clears exactly the conversation state: afterwards the intent is
the empty intent, the context is cleared, the step is 1, the thinking log is
empty, and the message list is the fresh greeting alone (or empty when the
greeting is absent/falsy or the session is a guest); the session identity
fields are unchanged. -/
theorem resetConversation_spec :
    ∀ (g : Option String) (s : WidgetState),
      (resetConversation g s).currentIntent = emptyIntent ∧
      (resetConversation g s).currentContext = none ∧
      (resetConversation g s).currentStep = 1 ∧
      (resetConversation g s).agentThinkingLogs = [] ∧
      (s.storedCustomerId = none → (resetConversation g s).messages = []) ∧
      (∀ g0, s.storedCustomerId.isSome → g = some g0 → g0 ≠ "" →
        (resetConversation g s).messages = [{ role := .assistant, content := g0 }]) ∧
      (s.storedCustomerId.isSome → g = none ∨ g = some "" →
        (resetConversation g s).messages = []) ∧
      (resetConversation g s).customerId = s.customerId ∧
      (resetConversation g s).customerName = s.customerName ∧
      (resetConversation g s).storedCustomerId = s.storedCustomerId ∧
      (resetConversation g s).storedCustomerName = s.storedCustomerName := by
  intro g s
  cases hst : s.storedCustomerId with
  | none =>
    have hr : resetConversation g s =
        { s with currentContext := none, currentIntent := emptyIntent,
                 currentStep := 1, agentThinkingLogs := [],
                 messages := ([] : List Message) } := by
      unfold resetConversation
      rw [hst]
    refine ⟨by rw [hr], by rw [hr], by rw [hr], by rw [hr], fun _ => by rw [hr],
      ?_, ?_, by rw [hr], by rw [hr], by rw [hr]; exact hst, by rw [hr]⟩
    · intro g0 hsome
      exact absurd hsome (by decide)
    · intro hsome
      exact absurd hsome (by decide)
  | some cid =>
    have hr : resetConversation g s =
        { s with currentContext := none, currentIntent := emptyIntent,
                 currentStep := 1, agentThinkingLogs := [],
                 messages := greetingMessages g } := by
      unfold resetConversation
      rw [hst]
    refine ⟨by rw [hr], by rw [hr], by rw [hr], by rw [hr], fun hnone => ?_,
      ?_, ?_, by rw [hr], by rw [hr], by rw [hr]; exact hst, by rw [hr]⟩
    · exact absurd hnone (by simp)
    · intro g0 _ hg hne
      rw [hr, hg]
      simp [greetingMessages, hne]
    · intro _ hg
      rcases hg with hg | hg <;> rw [hr, hg] <;> simp [greetingMessages]

/-- C4 witness: resetting a concrete mid-conversation logged-in state with
greeting "Welcome back!" yields exactly the greeting message, empty
intent/context/logs, step 1, and untouched identity fields. -/
theorem resetConversation_spec_witness :
    (resetConversation (some "Welcome back!") busyState).currentIntent = emptyIntent ∧
    (resetConversation (some "Welcome back!") busyState).messages =
      [{ role := .assistant, content := "Welcome back!" }] ∧
    (resetConversation (some "Welcome back!") busyState).customerId = some "CUST-42" ∧
    (resetConversation (some "Welcome back!") busyState).storedCustomerId = some "CUST-42" := by
  have h := resetConversation_spec (some "Welcome back!") busyState
  refine ⟨h.1, ?_, ?_, ?_⟩
  · exact h.2.2.2.2.2.1 "Welcome back!" (by decide) rfl (by decide)
  · rw [h.2.2.2.2.2.2.2.1]; rfl
  · rw [h.2.2.2.2.2.2.2.2.2.1]; rfl

/-- C5: a delivered turn appends exactly one assistant message whose content
is the response text (also when the products list is empty or absent), and a
failed turn appends nothing - no raw error ever replaces the assistant
message. -/
theorem turn_appends_one_assistant :
    ∀ (r : TurnResult) (s : WidgetState),
      (∀ d, r = .ok d →
        (applyTurnResult r s).messages = s.messages ++ [assistantMessageOf d] ∧
        (assistantMessageOf d).role = .assistant ∧
        (assistantMessageOf d).content = d.response ∧
        (applyTurnResult r s).messages.length = s.messages.length + 1) ∧
      (∀ e, r = .err e → (applyTurnResult r s).messages = s.messages) := by
  intro r s
  constructor
  · rintro d rfl
    refine ⟨rfl, rfl, rfl, ?_⟩
    simp [applyTurnResult, onSuccess]
  · rintro e rfl
    rfl

/-- C5 witness: delivering the empty-products apology response to a concrete
state appends exactly the one assistant message; a failed request leaves the
messages untouched. -/
theorem turn_appends_one_assistant_witness :
    (applyTurnResult (.ok apologyResponse) busyState).messages =
      busyState.messages ++ [assistantMessageOf apologyResponse] ∧
    (applyTurnResult (.err "Failed to send message") busyState).messages =
      busyState.messages := by
  have h1 := turn_appends_one_assistant (.ok apologyResponse) busyState
  have h2 := turn_appends_one_assistant (.err "Failed to send message") busyState
  exact ⟨(h1.1 apologyResponse rfl).1, h2.2 "Failed to send message" rfl⟩

/-- C6 counterexample: guest sessions do not use distinct synthetic ids -
every guest request carries the same numeric `user_id = 1` (there is no
string `session_id` field at all), and it even collides with the logged-in
customer `CUST-1`. -/
theorem guest_id_not_distinct :
    (chatRequestBody none "hello from guest A").user_id = some 1 ∧
    (chatRequestBody none "hello from guest B").user_id = some 1 ∧
    (chatRequestBody (some "CUST-1") "hello").user_id = some 1 := by
  decide

/-- C6 (amended): every turn request carries the user's message together
with a numeric `user_id`: parsed from the stored customer id with the
`CUST-` prefix removed when logged in, and the shared default 1 for every
guest session. -/
theorem chatRequestBody_spec :
    ∀ (stored : Option String) (msg : String),
      (chatRequestBody stored msg).message = msg ∧
      (chatRequestBody none msg).user_id = some 1 ∧
      (∀ sid, stored = some sid →
        (chatRequestBody stored msg).user_id =
          jsParseInt (jsReplaceFirst sid "CUST-" "")) := by
  intro stored msg
  refine ⟨rfl, rfl, ?_⟩
  rintro sid rfl
  rfl

/-- C6 witness: the concrete request of customer `CUST-42` carries the
message verbatim and `user_id = 42`. -/
theorem chatRequestBody_spec_witness :
    (chatRequestBody (some "CUST-42") "I need shoes").message = "I need shoes" ∧
    (chatRequestBody (some "CUST-42") "I need shoes").user_id = some 42 := by
  have h := chatRequestBody_spec (some "CUST-42") "I need shoes"
  refine ⟨h.1, ?_⟩
  rw [h.2.2 "CUST-42" rfl]
  decide

/-- Helper: the in-flight count never exceeds 1 from any in-range start. -/
theorem clientRun_from_bound (evs : List ClientEvent) :
    ∀ n : Nat, n ≤ 1 → evs.foldl clientStep n ≤ 1 := by
  induction evs with
  | nil => intro n h; exact h
  | cons e evs ih =>
    intro n h
    have hstep : clientStep n e ≤ 1 := by
      cases e with
      | send i =>
        simp only [clientStep]
        split
        · exact h
        · rename_i hc
          have hn : n = 0 := by
            by_contra hne
            exact hc (Or.inr (by simp [pendingOf, hne]))
          omega
      | suggest t =>
        simp only [clientStep]
        split
        · exact h
        · rename_i hc
          have hn : n = 0 := by
            by_contra hne
            exact hc (by simp [pendingOf, hne])
          omega
      | complete =>
        simp only [clientStep]
        omega
    simp only [List.foldl]
    exact ih (clientStep n e) hstep

/-- C7: turn requests are serialized: from the idle state, no sequence of
send clicks, suggestion clicks and completions ever has more than one
request in flight, because while a request is pending both the send handler
and the suggestion handler refuse to issue a new one (they leave the state
unchanged). -/
theorem turns_serialized :
    ∀ (evs : List ClientEvent) (n : Nat) (i t : String),
      clientRun evs ≤ 1 ∧
      (pendingOf n = true →
        clientStep n (.send i) = n ∧ clientStep n (.suggest t) = n) := by
  intro evs n i t
  refine ⟨clientRun_from_bound evs 0 (by omega), fun hp => ?_⟩
  constructor
  · simp [clientStep, hp]
  · simp [clientStep, hp]

/-- C7 witness: with one request pending, a concrete send and a concrete
suggestion click are both refused, and a concrete burst of events never has
two requests in flight. -/
theorem turns_serialized_witness :
    pendingOf 1 = true ∧
    clientStep 1 (.send "two at once") = 1 ∧
    clientStep 1 (.suggest "Wedding") = 1 ∧
    clientRun [.send "a", .send "b", .suggest "c", .complete, .send "d"] ≤ 1 := by
  have h := turns_serialized [.send "a", .send "b", .suggest "c", .complete, .send "d"]
    1 "two at once" "Wedding"
  have hp : pendingOf 1 = true := by decide
  exact ⟨hp, (h.2 hp).1, (h.2 hp).2, h.1⟩

/-- C8: the send handler issues a turn request exactly when no request is
pending and the trimmed input is non-empty; any request it issues carries
the raw input, whose trimmed text is non-empty - so no turn starts with an
empty or whitespace-only message; a refused send leaves the state
unchanged. -/
theorem handleSend_guard :
    ∀ (p : Bool) (s : WidgetState),
      ((handleSend p s).2 ≠ none ↔ (jsTrim s.input ≠ "" ∧ p = false)) ∧
      (∀ r, (handleSend p s).2 = some r →
        r.message = s.input ∧ jsTrim r.message ≠ "") ∧
      ((handleSend p s).2 = none → (handleSend p s).1 = s) := by
  intro p s
  by_cases hc : jsTrim s.input = "" ∨ p = true
  · refine ⟨?_, ?_, ?_⟩
    · simp only [handleSend, if_pos hc]
      constructor
      · intro h; exact absurd rfl h
      · rintro ⟨h1, h2⟩
        rcases hc with hc | hc
        · exact absurd hc h1
        · rw [h2] at hc; exact absurd hc (by decide)
    · intro r hr
      simp only [handleSend, if_pos hc] at hr
      exact absurd hr (by simp)
    · intro _; simp only [handleSend, if_pos hc]
  · push_neg at hc
    obtain ⟨h1, h2⟩ := hc
    have hp : p = false := by cases p with
      | false => rfl
      | true => exact absurd rfl h2
    have hcond : ¬(jsTrim s.input = "" ∨ p = true) := by
      rintro (h | h)
      · exact h1 h
      · exact h2 h
    refine ⟨?_, ?_, ?_⟩
    · simp only [handleSend, if_neg hcond]
      constructor
      · intro _; exact ⟨h1, hp⟩
      · intro _; simp
    · intro r hr
      simp only [handleSend, if_neg hcond, Option.some.injEq] at hr
      constructor
      · rw [← hr]
        rfl
      · rw [← hr]
        exact h1
    · intro hr
      simp only [handleSend, if_neg hcond] at hr
      exact absurd hr (by simp)

/-- C8 witness: on a concrete state with whitespace-only input no request is
issued and the state is unchanged; on the concrete busy state (non-empty
trimmed input, not pending) a request carrying the input is issued. -/
theorem handleSend_guard_witness :
    (handleSend false { busyState with input := "   " }).2 = none ∧
    (handleSend false { busyState with input := "   " }).1 =
      { busyState with input := "   " } ∧
    (handleSend false busyState).2 =
      some (chatRequestBody (some "CUST-42") "  for a wedding  ") ∧
    (handleSend true busyState).2 = none := by
  have h1 := handleSend_guard false { busyState with input := "   " }
  have h3 := handleSend_guard true busyState
  have e1 : (handleSend false { busyState with input := "   " }).2 = none := by
    by_contra hne
    exact (h1.1.mp hne).1 (by decide)
  have e3 : (handleSend true busyState).2 = none := by
    by_contra hne
    exact absurd (h3.1.mp hne).2 (by decide)
  refine ⟨e1, h1.2.2 e1, ?_, e3⟩
  · decide

/-- Helper: a key the cart does not have matches no entry. -/
theorem not_has_keys {c : Cart} {k : Nat} (h : cartHas c k = false) :
    ∀ e ∈ c, (e.1 == k) = false := by
  intro e he
  by_contra hne
  have hk : (e.1 == k) = true := by
    cases hk : (e.1 == k) with
    | false => exact absurd hk hne
    | true => rfl
  have : cartHas c k = true := by
    unfold cartHas
    rw [List.any_eq_true]
    exact ⟨e, he, hk⟩
  rw [this] at h
  cases h

/-- Helper: deleting an absent key leaves the cart unchanged. -/
theorem cartDelete_absent {c : Cart} {k : Nat} (h : cartHas c k = false) :
    cartDelete c k = c := by
  unfold cartDelete
  apply List.filter_eq_self.mpr
  intro e he
  have := not_has_keys h e he
  simp [bne, this]

/-- Helper: after appending a fresh entry, looking the key up finds it. -/
theorem cartGet_append_fresh {c : Cart} {k : Nat} {v : CartItem}
    (h : cartHas c k = false) : cartGet (c ++ [(k, v)]) k = some v := by
  induction c with
  | nil => simp [cartGet]
  | cons a t ih =>
    have ha : (a.1 == k) = false := not_has_keys h a (by simp)
    have ht : cartHas t k = false := by
      cases hk : cartHas t k with
      | false => rfl
      | true =>
        exfalso
        unfold cartHas at hk h
        simp only [List.any_cons, Bool.or_eq_false_iff] at h
        rw [hk] at h
        exact absurd h.2 (by decide)
    have := ih ht
    unfold cartGet at this ⊢
    simp only [List.cons_append, List.find?_cons, ha]
    exact this

/-- Helper: the appended key is present. -/
theorem cartHas_append_self (c : Cart) (k : Nat) (v : CartItem) :
    cartHas (c ++ [(k, v)]) k = true := by
  unfold cartHas
  rw [List.any_eq_true]
  exact ⟨(k, v), by simp, by simp⟩

/-- Helper: after a delete the key is gone. -/
theorem cartHas_delete (c : Cart) (k : Nat) :
    cartHas (cartDelete c k) k = false := by
  unfold cartHas cartDelete
  cases hk : (c.filter (fun e => e.1 != k)).any (fun e => e.1 == k) with
  | false => rfl
  | true =>
    exfalso
    rw [List.any_eq_true] at hk
    obtain ⟨e, he, hke⟩ := hk
    have := List.of_mem_filter he
    simp [bne, hke] at this

/-- Helper: `Set.add` makes the element contained. -/
theorem selAdd_contains (s : List Nat) (k : Nat) :
    (selAdd s k).contains k = true := by
  unfold selAdd
  split
  · rename_i h; exact h
  · simp

/-- Helper: deleting preserves the quantity invariant. -/
theorem cartQuantInv_delete {c : Cart} (k : Nat) (h : CartQuantInv c) :
    CartQuantInv (cartDelete c k) := by
  intro e he
  exact h e (List.mem_of_mem_filter he)

/-- Helper: setting a value with quantity at least 1 preserves the
invariant. -/
theorem cartQuantInv_set {c : Cart} {k : Nat} {v : CartItem}
    (h : CartQuantInv c) (hv : 1 ≤ v.quantity) : CartQuantInv (cartSet c k v) := by
  intro e he
  unfold cartSet at he
  split at he
  · obtain ⟨a, ha, rfl⟩ := List.mem_map.mp he
    cases hk : (a.1 == k) with
    | true => simpa [hk] using hv
    | false =>
      have := h a ha
      simpa [hk] using this
  · rcases List.mem_append.mp he with h1 | h1
    · exact h e h1
    · have : e = (k, v) := by simpa using h1
      rw [this]
      exact hv

/-- Helper: the state `addToCart` yields on an absent product. -/
theorem addToCart_absent {p : Product} {b : BasketState}
    (habs : cartHas b.cartItems p.id = false) :
    addToCart p b =
      { cartItems := b.cartItems ++ [(p.id, CartItem.mk p 1)],
        selected := selAdd b.selected p.id } := by
  unfold addToCart
  rw [if_neg (by rw [habs]; exact Bool.false_ne_true)]
  unfold cartSet
  rw [if_neg (by rw [habs]; exact Bool.false_ne_true)]

/-- Helper: the state `addToCart` yields on a present product. -/
theorem addToCart_present {p : Product} {b : BasketState}
    (hpres : cartHas b.cartItems p.id = true) :
    addToCart p b =
      { cartItems := cartDelete b.cartItems p.id,
        selected := selDelete b.selected p.id } := by
  unfold addToCart
  rw [if_pos hpres]

/-- Helper: `addToCart` preserves the quantity invariant. -/
theorem addToCart_inv (p : Product) (b : BasketState)
    (h : CartQuantInv b.cartItems) : CartQuantInv ((addToCart p b).cartItems) := by
  cases hk : cartHas b.cartItems p.id with
  | true =>
    rw [addToCart_present hk]
    exact cartQuantInv_delete p.id h
  | false =>
    rw [addToCart_absent hk]
    intro e he
    rcases List.mem_append.mp he with h1 | h1
    · exact h e h1
    · have : e = (p.id, CartItem.mk p 1) := by simpa using h1
      rw [this]

/-- Helper: `updateQuantity` preserves the quantity invariant. -/
theorem updateQuantity_inv (k : Nat) (d : Int) (b : BasketState)
    (h : CartQuantInv b.cartItems) :
    CartQuantInv ((updateQuantity k d b).cartItems) := by
  unfold updateQuantity
  cases hg : cartGet b.cartItems k with
  | none => exact h
  | some item =>
    by_cases hq : item.quantity + d < 1
    · show CartQuantInv ((if item.quantity + d < 1 then b else _).cartItems)
      rw [if_pos hq]
      exact h
    · show CartQuantInv ((if item.quantity + d < 1 then b else
        { b with cartItems :=
          cartSet b.cartItems k ({ item with quantity := item.quantity + d }) }).cartItems)
      rw [if_neg hq]
      refine cartQuantInv_set h ?_
      show (1 : Int) ≤ item.quantity + d
      omega

/-- Helper: each cart operation preserves the quantity invariant. -/
theorem applyCartOp_inv (b : BasketState) (op : CartOp)
    (h : CartQuantInv b.cartItems) : CartQuantInv ((applyCartOp b op).cartItems) := by
  cases op with
  | add p => exact addToCart_inv p b h
  | remove k => exact cartQuantInv_delete k h
  | update k d => exact updateQuantity_inv k d b h

/-- Helper: the invariant holds in every state reachable from the empty
cart. -/
theorem runCartOps_inv (ops : List CartOp) : CartQuantInv (runCartOps ops).cartItems := by
  unfold runCartOps
  have hgen : ∀ (os : List CartOp) (b : BasketState), CartQuantInv b.cartItems →
      CartQuantInv ((os.foldl applyCartOp b).cartItems) := by
    intro os
    induction os with
    | nil => intro b h; exact h
    | cons op os ih =>
      intro b h
      simp only [List.foldl]
      exact ih (applyCartOp b op) (applyCartOp_inv b op h)
  exact hgen ops {} (by intro e he; cases he)

/-- C9: in every cart state reachable from the empty cart via `addToCart`,
`removeFromCart` and `updateQuantity`, every item's quantity is at least 1;
and `updateQuantity` leaves the state unchanged when the product is absent
or when the requested delta would drop the quantity below 1. -/
theorem cart_quantity_invariant :
    ∀ (ops : List CartOp) (e : Nat × CartItem) (b : BasketState) (k : Nat) (d : Int),
      (e ∈ (runCartOps ops).cartItems → 1 ≤ e.2.quantity) ∧
      (cartGet b.cartItems k = none → updateQuantity k d b = b) ∧
      (∀ item, cartGet b.cartItems k = some item → item.quantity + d < 1 →
        updateQuantity k d b = b) := by
  intro ops e b k d
  refine ⟨fun he => runCartOps_inv ops e he, fun hnone => ?_, fun item hsome hlt => ?_⟩
  · unfold updateQuantity
    rw [hnone]
  · unfold updateQuantity
    rw [hsome]
    show (if item.quantity + d < 1 then b else _) = b
    rw [if_pos hlt]

/-- C9 witness: from the empty cart, adding a product and raising its
quantity by 5 yields the concrete entry with quantity 6 (at least 1); on a
concrete one-item cart, updating an absent product id 2 and dropping item 1
below quantity 1 both leave the state unchanged. -/
theorem cart_quantity_invariant_witness :
    1 ≤ ((1 : Nat), CartItem.mk (sampleProduct 1) 6).2.quantity ∧
    updateQuantity 2 1
        { cartItems := [(1, CartItem.mk (sampleProduct 1) 1)], selected := [1] } =
      { cartItems := [(1, CartItem.mk (sampleProduct 1) 1)], selected := [1] } ∧
    updateQuantity 1 (-1)
        { cartItems := [(1, CartItem.mk (sampleProduct 1) 1)], selected := [1] } =
      { cartItems := [(1, CartItem.mk (sampleProduct 1) 1)], selected := [1] } := by
  have h := cart_quantity_invariant
    [CartOp.add (sampleProduct 1), CartOp.update 1 5]
    ((1 : Nat), CartItem.mk (sampleProduct 1) 6)
    { cartItems := [(1, CartItem.mk (sampleProduct 1) 1)], selected := [1] } 1 (-1)
  have h2 := cart_quantity_invariant
    [CartOp.add (sampleProduct 1), CartOp.update 1 5]
    ((1 : Nat), CartItem.mk (sampleProduct 1) 6)
    { cartItems := [(1, CartItem.mk (sampleProduct 1) 1)], selected := [1] } 2 1
  refine ⟨h.1 (by decide), h2.2.1 (by decide), ?_⟩
  exact h.2.2 (CartItem.mk (sampleProduct 1) 1) (by decide) (by decide)

/-- C10: `addToCart` toggles membership: an absent product is inserted with
quantity exactly 1 (appended to the cart) and marked selected; a present
product is removed entirely; and adding the same absent product twice
returns the cart to its original contents. -/
theorem addToCart_toggle :
    ∀ (p : Product) (b : BasketState),
      (cartHas b.cartItems p.id = false →
        (addToCart p b).cartItems = b.cartItems ++ [(p.id, CartItem.mk p 1)] ∧
        cartGet (addToCart p b).cartItems p.id = some (CartItem.mk p 1) ∧
        (addToCart p b).selected.contains p.id = true) ∧
      (cartHas b.cartItems p.id = true →
        (addToCart p b).cartItems = cartDelete b.cartItems p.id ∧
        cartHas (addToCart p b).cartItems p.id = false) ∧
      (cartHas b.cartItems p.id = false →
        (addToCart p (addToCart p b)).cartItems = b.cartItems) := by
  intro p b
  refine ⟨fun habs => ?_, fun hpres => ?_, fun habs => ?_⟩
  · have h1 := addToCart_absent habs
    refine ⟨by rw [h1], ?_, ?_⟩
    · rw [h1]
      exact cartGet_append_fresh habs
    · rw [h1]
      exact selAdd_contains b.selected p.id
  · have h1 := addToCart_present hpres
    refine ⟨by rw [h1], ?_⟩
    rw [h1]
    exact cartHas_delete b.cartItems p.id
  · have h1 := addToCart_absent habs
    have hpres2 : cartHas (addToCart p b).cartItems p.id = true := by
      rw [h1]
      exact cartHas_append_self b.cartItems p.id (CartItem.mk p 1)
    rw [addToCart_present hpres2]
    show cartDelete (addToCart p b).cartItems p.id = b.cartItems
    rw [h1]
    show cartDelete (b.cartItems ++ [(p.id, CartItem.mk p 1)]) p.id = b.cartItems
    unfold cartDelete
    rw [List.filter_append]
    have h2 : b.cartItems.filter (fun e => e.1 != p.id) = b.cartItems :=
      cartDelete_absent habs
    have h3 : ([(p.id, CartItem.mk p 1)] : Cart).filter (fun e => e.1 != p.id) = [] := by
      simp
    rw [h2, h3, List.append_nil]

/-- C10 witness: adding a concrete product to a cart that lacks it inserts
it with quantity 1 and selects it; doing it again restores the original
cart contents. -/
theorem addToCart_toggle_witness :
    (addToCart (sampleProduct 2)
        { cartItems := [(1, CartItem.mk (sampleProduct 1) 1)], selected := [1] }).cartItems =
      [(1, CartItem.mk (sampleProduct 1) 1), (2, CartItem.mk (sampleProduct 2) 1)] ∧
    (addToCart (sampleProduct 2) (addToCart (sampleProduct 2)
        { cartItems := [(1, CartItem.mk (sampleProduct 1) 1)], selected := [1] })).cartItems =
      [(1, CartItem.mk (sampleProduct 1) 1)] := by
  have h := addToCart_toggle (sampleProduct 2)
    { cartItems := [(1, CartItem.mk (sampleProduct 1) 1)], selected := [1] }
  refine ⟨?_, ?_⟩
  · rw [(h.1 (by decide)).1]
    decide
  · rw [h.2.2 (by decide)]

end Shop
